import Mathlib

/-!
Shallow embedding of `src/colab/verify_environment.py` (AeonSage Colab
environment checker) and proofs about its check-aggregation behaviour.

The Python program is sequential glue over external command invocations.
We embed it as pure state-passing functions:

* external observations (command outcomes, filesystem existence tests,
  environment variables) are collected in an `Env` record supplied to the
  run, so every function of the program becomes a deterministic function
  of `Env` and the checker state;
* the mutable checker object (`results`, `passed`, `failed`) together with
  the process working directory becomes an explicit `CheckerState`;
* Python exceptions are modelled with `Except`; for the project-installation
  group, whose `try/finally` must restore the working directory, an
  injected `fault : Option Nat` names the point inside the `try` body at
  which an exception is raised (`none` = normal execution);
* Python string primitives `str.strip()`, `str.split()` (whitespace) and
  `str.split(sep)` are re-implemented structurally on `List Char` so that
  all definitions kernel-evaluate.
-/

namespace VerifyEnv

/-- Python whitespace for `str.strip` and `str.split()`:
space, tab, newline, carriage return, vertical tab, form feed. -/
def pyIsSpace (c : Char) : Bool :=
  c == ' ' || c == '\t' || c == '\n' || c == '\r' || c == '\x0b' || c == '\x0c'

/-- Strip `pyIsSpace` characters from both ends of a character list. -/
def stripData (cs : List Char) : List Char :=
  ((cs.dropWhile pyIsSpace).reverse.dropWhile pyIsSpace).reverse

/-- Python `s.strip()`: removes leading and trailing whitespace. -/
def pyStrip (s : String) : String := ⟨stripData s.data⟩

/-- Right-trim only (trailing whitespace removed, leading preserved).
Modelled from the spec's words "right-trimmed of trailing
whitespace/newlines"; the source uses `str.strip()` instead. -/
def pyStripRight (s : String) : String :=
  ⟨(s.data.reverse.dropWhile pyIsSpace).reverse⟩

/-- Helper for `splitLines`: split a character list at newline characters. -/
def splitLinesAux : List Char → List Char → List String
  | [], acc => [⟨acc.reverse⟩]
  | c :: cs, acc =>
    if c = '\n' then ⟨acc.reverse⟩ :: splitLinesAux cs []
    else splitLinesAux cs (c :: acc)

/-- Python `s.split('\n')`. -/
def splitLines (s : String) : List String := splitLinesAux s.data []

/-- Helper for `pySplit`: split at whitespace runs, dropping empty tokens. -/
def pySplitAux : List Char → List Char → List String
  | [], acc => if acc.isEmpty then [] else [⟨acc.reverse⟩]
  | c :: cs, acc =>
    if pyIsSpace c then
      if acc.isEmpty then pySplitAux cs []
      else ⟨acc.reverse⟩ :: pySplitAux cs []
    else pySplitAux cs (c :: acc)

/-- Python `s.split()` with no argument: split on whitespace runs,
no empty tokens. -/
def pySplit (s : String) : List String := pySplitAux s.data []

/-- One recorded check: the tuple `(test_name, passed, message)` appended to
`self.results` by `log_result`. -/
structure CheckResult where
  name : String
  passed : Bool
  message : String
deriving DecidableEq, Repr

/-- State of a `ColabEnvironmentChecker` object (`results`, `passed`,
`failed`) plus the process working directory, which the installation check
group mutates and restores. -/
structure CheckerState where
  results : List CheckResult
  passed : Nat
  failed : Nat
  cwd : String
deriving DecidableEq, Repr

/-- Fresh checker (`__init__`: empty results, zero counters) in a process
whose working directory is `cwd`. -/
def initState (cwd : String) : CheckerState := ⟨[], 0, 0, cwd⟩

/-- Embedding of `log_result`: append one result tuple and bump exactly one
of the two counters. -/
def log_result (st : CheckerState) (test_name : String) (passed : Bool)
    (message : String) : CheckerState :=
  { st with
    results := st.results ++ [⟨test_name, passed, message⟩]
    passed := if passed then st.passed + 1 else st.passed
    failed := if passed then st.failed else st.failed + 1 }

/-- Outcome of `subprocess.run` inside `run_command`: normal exit with a
return code and captured stdout, a `TimeoutExpired`, or any other
exception with its description. -/
inductive ProbeOutcome where
  | normalExit (returncode : Int) (stdout : String)
  | timeout
  | failure (desc : String)
deriving DecidableEq, Repr

/-- Embedding of `run_command`: `(returncode == 0, stdout.strip())` on normal
exit, a fixed sentinel on timeout, and an embedded description on any other
exception. Never raises. -/
def run_command (o : ProbeOutcome) : Bool × String :=
  match o with
  | .normalExit code out => (code == 0, pyStrip out)
  | .timeout => (false, "命令执行超时")
  | .failure e => (false, "执行错误: " ++ e)

/-- Outcome of the `subprocess.run(['df', '-h', '/'], ...)` call in the
disk-space block of `check_system_info`: either the call returned (with a
return code and stdout), or something in the `try` block raised. -/
inductive DfOutcome where
  | ran (returncode : Int) (stdout : String)
  | raised
deriving DecidableEq, Repr

/-- Embedding of the disk-space block of `check_system_info` (the
`try`/bare-`except` around the `df -h /` probe). On a raised exception the
bare `except` records the failure result; when the call returns, a result
is recorded only if the return code is zero, stdout has a second line, and
that line splits into more than three fields — otherwise the nested `if`s
fall through and nothing is recorded. -/
def check_disk_space (o : DfOutcome) (st : CheckerState) : CheckerState :=
  match o with
  | .raised => log_result st "磁盘空间" false "无法获取磁盘信息"
  | .ran code out =>
    if code = 0 then
      let lines := splitLines (pyStrip out)
      if lines.length > 1 then
        let disk_info := pySplit (lines.getD 1 "")
        if disk_info.length > 3 then
          let used := disk_info.getD 2 ""
          let available := disk_info.getD 3 ""
          log_result st "磁盘空间" true ("已用: " ++ used ++ ", 可用: " ++ available)
        else st
      else st
    else st

/-- The results that the disk-space block appends, as a function of the probe
outcome: one failure result on a raised exception, one passing result on a
successful parse, nothing otherwise. -/
def diskAppended (o : DfOutcome) : List CheckResult :=
  match o with
  | .raised => [⟨"磁盘空间", false, "无法获取磁盘信息"⟩]
  | .ran code out =>
    if code = 0 then
      let lines := splitLines (pyStrip out)
      if lines.length > 1 then
        let disk_info := pySplit (lines.getD 1 "")
        if disk_info.length > 3 then
          [⟨"磁盘空间", true,
            "已用: " ++ disk_info.getD 2 "" ++ ", 可用: " ++ disk_info.getD 3 ""⟩]
        else []
      else []
    else []

/-- External observations of one run: Python/platform strings, the
`COLAB_GPU` environment variable, the `df` probe, the outcomes of all
commands invoked through `run_command`, and the filesystem existence tests
of the installation group. -/
structure Env where
  pythonVersion : String
  platformInfo : String
  architecture : String
  colabGpu : Bool
  dfOutcome : DfOutcome
  nodeProbe : ProbeOutcome
  npmProbe : ProbeOutcome
  pnpmProbe : ProbeOutcome
  gitProbe : ProbeOutcome
  projectExists : Bool
  packageExists : Bool
  nodeModulesExists : Bool
  distExists : Bool
  cliVersionProbe : ProbeOutcome
  cliHelpProbe : ProbeOutcome
  pingProbe : ProbeOutcome
  curlProbe : ProbeOutcome
  npmPingProbe : ProbeOutcome
deriving DecidableEq, Repr

/-- Embedding of `check_system_info`: version, platform and architecture
results always pass; the GPU result passes iff `COLAB_GPU` is in the
environment; then the disk-space block runs. -/
def check_system_info (env : Env) (st : CheckerState) : CheckerState :=
  let st := log_result st "Python 版本" true env.pythonVersion
  let st := log_result st "操作系统" true env.platformInfo
  let st := log_result st "系统架构" true env.architecture
  let st := log_result st "GPU 支持" env.colabGpu
    (if env.colabGpu then "可用" else "不可用")
  check_disk_space env.dfOutcome st

/-- Embedding of `check_node_environment`: four `--version` probes, each
passing iff the probe succeeded, with the captured version string on
success and a fixed "not installed" string otherwise. -/
def check_node_environment (env : Env) (st : CheckerState) : CheckerState :=
  let r := run_command env.nodeProbe
  let st := log_result st "Node.js 安装" r.1 (if r.1 then r.2 else "未安装")
  let r := run_command env.npmProbe
  let st := log_result st "npm 安装" r.1 (if r.1 then r.2 else "未安装")
  let r := run_command env.pnpmProbe
  let st := log_result st "pnpm 安装" r.1 (if r.1 then r.2 else "未安装")
  let r := run_command env.gitProbe
  log_result st "Git 安装" r.1 (if r.1 then r.2 else "未安装")

/-- Body of the `try` block of `check_aeonsage_installation`. A `fault` of
`some k` raises an exception just before the k-th statement of the body,
modelling an exception thrown by any check inside the group. -/
def tryBody (env : Env) (fault : Option Nat) (st : CheckerState) :
    Except Unit Unit × CheckerState :=
  if fault = some 0 then (Except.error (), st) else
  let package_exists := env.packageExists
  let st := log_result st "package.json" package_exists
    (if package_exists then "存在" else "缺失")
  if fault = some 1 then (Except.error (), st) else
  if package_exists then
    let st := log_result st "依赖安装" env.nodeModulesExists
      (if env.nodeModulesExists then "已完成" else "需要运行 pnpm install")
    if fault = some 2 then (Except.error (), st) else
    let st := log_result st "构建输出" env.distExists
      (if env.distExists then "已构建" else "需要运行 pnpm build")
    if fault = some 3 then (Except.error (), st) else
    if env.distExists then
      let r := run_command env.cliVersionProbe
      let st := log_result st "CLI 工具" r.1 (if r.1 then r.2 else "无法执行")
      if fault = some 4 then (Except.error (), st) else
      let r := run_command env.cliHelpProbe
      (Except.ok (), log_result st "CLI 帮助" r.1 (if r.1 then "可用" else "不可用"))
    else (Except.ok (), st)
  else (Except.ok (), st)

/-- Embedding of `check_aeonsage_installation`: record the project-directory
result; if the directory is absent, return early. Otherwise save the
original working directory, `chdir` into the project, run the `try` body,
and in `finally` restore the original directory unconditionally, whether
the body completed or raised. -/
def check_aeonsage_installation (env : Env) (fault : Option Nat)
    (st : CheckerState) : Except Unit Unit × CheckerState :=
  let project_exists := env.projectExists
  let st := log_result st "项目目录" project_exists
    (if project_exists then "aeonsage" else "未找到")
  if project_exists then
    let original_dir := st.cwd
    let st := { st with cwd := st.cwd ++ "/aeonsage" }
    let r := tryBody env fault st
    (r.1, { r.2 with cwd := original_dir })
  else
    (Except.ok (), st)

/-- Embedding of `check_network_connectivity`: ping, curl and `npm ping`
probes, each passing iff the probe succeeded. -/
def check_network_connectivity (env : Env) (st : CheckerState) : CheckerState :=
  let r := run_command env.pingProbe
  let st := log_result st "互联网连接" r.1 (if r.1 then "正常" else "异常")
  let r := run_command env.curlProbe
  let st := log_result st "GitHub 连接" r.1 (if r.1 then "可访问" else "无法访问")
  let r := run_command env.npmPingProbe
  log_result st "npm Registry" r.1 (if r.1 then "响应正常" else "无响应")

/-- The five critical check names of `run_comprehensive_test`. -/
def criticalNames : List String :=
  ["Node.js 安装", "pnpm 安装", "项目目录", "依赖安装", "构建输出"]

/-- Embedding of the `critical_checks` list comprehension: the `passed`
values of those recorded results whose name is critical, in order.
A critical name with no recorded result simply contributes nothing. -/
def criticalChecks (results : List CheckResult) : List Bool :=
  (results.filter (fun r => criticalNames.contains r.name)).map (fun r => r.passed)

/-- The three readiness verdicts: `ready` is the spec's READY, `incomplete`
its PARTIAL, `notConfigured` its NOT_CONFIGURED. -/
inductive Verdict where
  | ready
  | incomplete
  | notConfigured
deriving DecidableEq, Repr

/-- The verdict as the source computes it: `all` over the collected
`critical_checks` values, then `any`. -/
def verdict (results : List CheckResult) : Verdict :=
  let cs := criticalChecks results
  if cs.all id then Verdict.ready
  else if cs.any id then Verdict.incomplete
  else Verdict.notConfigured

/-- Modelled from the spec's words, for comparison with `verdict`: look up
each critical name in the result sequence, a name absent from the sequence
counting as failed. -/
def lookupPassed (results : List CheckResult) (name : String) : Bool :=
  match results.find? (fun r => r.name == name) with
  | some r => r.passed
  | none => false

/-- Modelled from the spec's words, for comparison with `verdict`: READY iff
all five critical names (absent counting as failed) passed, PARTIAL iff at
least one but not all passed, NOT_CONFIGURED iff none passed. -/
def verdictSpec (results : List CheckResult) : Verdict :=
  let cs := criticalNames.map (lookupPassed results)
  if cs.all id then Verdict.ready
  else if cs.any id then Verdict.incomplete
  else Verdict.notConfigured

/-- Embedding of the Reporter's success-rate computation
`passed / (passed + failed) * 100`: Python raises `ZeroDivisionError` when
`passed + failed` is zero, modelled as `none`. -/
def successRate (passed failed : Nat) : Option ℚ :=
  if passed + failed = 0 then none
  else some ((passed : ℚ) / ((passed : ℚ) + (failed : ℚ)) * 100)

/-- Embedding of `run_comprehensive_test`: run the four check groups in
order (propagating an exception raised inside the installation group) and
return the boolean the source returns, `all(critical_checks)`. -/
def run_comprehensive_test (env : Env) (fault : Option Nat)
    (st : CheckerState) : Except Unit Bool × CheckerState :=
  let st := check_system_info env st
  let st := check_node_environment env st
  match check_aeonsage_installation env fault st with
  | (Except.error e, st) => (Except.error e, st)
  | (Except.ok _, st) =>
    let st := check_network_connectivity env st
    (Except.ok ((criticalChecks st.results).all id), st)

/-- Embedding of `main`: run the suite from a fresh checker and return the
process exit status, `0` when the suite reported success and `1` otherwise. -/
def main (env : Env) (fault : Option Nat) (cwd : String) : Except Unit Nat :=
  match run_comprehensive_test env fault (initState cwd) with
  | (Except.error e, _) => Except.error e
  | (Except.ok success, _) => Except.ok (if success then 0 else 1)

/-- The four fixed results of `check_system_info` followed by whatever the
disk-space block appends. -/
def sysAppended (env : Env) : List CheckResult :=
  [⟨"Python 版本", true, env.pythonVersion⟩,
   ⟨"操作系统", true, env.platformInfo⟩,
   ⟨"系统架构", true, env.architecture⟩,
   ⟨"GPU 支持", env.colabGpu, if env.colabGpu then "可用" else "不可用"⟩]
  ++ diskAppended env.dfOutcome

/-- The result recorded for one `<tool> --version` probe of
`check_node_environment`. -/
def tool_result (name : String) (p : ProbeOutcome) : CheckResult :=
  ⟨name, (run_command p).1, if (run_command p).1 then (run_command p).2 else "未安装"⟩

/-- The four results of `check_node_environment`. -/
def nodeEnvAppended (env : Env) : List CheckResult :=
  [tool_result "Node.js 安装" env.nodeProbe,
   tool_result "npm 安装" env.npmProbe,
   tool_result "pnpm 安装" env.pnpmProbe,
   tool_result "Git 安装" env.gitProbe]

/-- The three results of `check_network_connectivity`. -/
def networkAppended (env : Env) : List CheckResult :=
  [⟨"互联网连接", (run_command env.pingProbe).1,
    if (run_command env.pingProbe).1 then "正常" else "异常"⟩,
   ⟨"GitHub 连接", (run_command env.curlProbe).1,
    if (run_command env.curlProbe).1 then "可访问" else "无法访问"⟩,
   ⟨"npm Registry", (run_command env.npmPingProbe).1,
    if (run_command env.npmPingProbe).1 then "响应正常" else "无响应"⟩]

/-- Fold of `log_result` over a list of `(name, passed, message)` calls. -/
def logMany (st : CheckerState) : List (String × Bool × String) → CheckerState
  | [] => st
  | c :: cs => logMany (log_result st c.1 c.2.1 c.2.2) cs

/-- A baseline concrete environment: nothing installed, every probe times
out, the project directory is absent, the disk probe raises. -/
def envBase : Env where
  pythonVersion := "3.10.12"
  platformInfo := "Linux"
  architecture := "64bit"
  colabGpu := false
  dfOutcome := DfOutcome.raised
  nodeProbe := ProbeOutcome.timeout
  npmProbe := ProbeOutcome.timeout
  pnpmProbe := ProbeOutcome.timeout
  gitProbe := ProbeOutcome.timeout
  projectExists := false
  packageExists := false
  nodeModulesExists := false
  distExists := false
  cliVersionProbe := ProbeOutcome.timeout
  cliHelpProbe := ProbeOutcome.timeout
  pingProbe := ProbeOutcome.timeout
  curlProbe := ProbeOutcome.timeout
  npmPingProbe := ProbeOutcome.timeout

/-- A concrete environment in which all four tools report versions, the
project directory exists, but `package.json` is missing: the dependency and
build-output checks are then never recorded. -/
def envNoManifest : Env :=
  { envBase with
    nodeProbe := ProbeOutcome.normalExit 0 "v20.0.0"
    npmProbe := ProbeOutcome.normalExit 0 "10.0.0"
    pnpmProbe := ProbeOutcome.normalExit 0 "9.0.0"
    gitProbe := ProbeOutcome.normalExit 0 "git version 2.40"
    projectExists := true }

/-! Helper lemmas: each check function appends a describable list of results
and leaves the working directory unchanged. -/

theorem log_result_results (st : CheckerState) (n : String) (p : Bool)
    (m : String) : (log_result st n p m).results = st.results ++ [⟨n, p, m⟩] :=
  rfl

theorem check_disk_space_results (o : DfOutcome) (st : CheckerState) :
    (check_disk_space o st).results = st.results ++ diskAppended o := by
  cases o with
  | raised => rfl
  | ran code out =>
    simp only [check_disk_space, diskAppended]
    repeat' split
    all_goals simp [log_result]

theorem check_disk_space_cwd (o : DfOutcome) (st : CheckerState) :
    (check_disk_space o st).cwd = st.cwd := by
  cases o with
  | raised => rfl
  | ran code out =>
    simp only [check_disk_space]
    repeat' split
    all_goals rfl

theorem check_system_info_results (env : Env) (st : CheckerState) :
    (check_system_info env st).results = st.results ++ sysAppended env := by
  simp [check_system_info, log_result, sysAppended, check_disk_space_results]

theorem check_system_info_cwd (env : Env) (st : CheckerState) :
    (check_system_info env st).cwd = st.cwd := by
  simp only [check_system_info]
  rw [check_disk_space_cwd]
  rfl

theorem check_node_environment_results (env : Env) (st : CheckerState) :
    (check_node_environment env st).results = st.results ++ nodeEnvAppended env := by
  simp [check_node_environment, log_result, nodeEnvAppended, tool_result]

theorem check_node_environment_cwd (env : Env) (st : CheckerState) :
    (check_node_environment env st).cwd = st.cwd :=
  rfl

theorem check_network_connectivity_results (env : Env) (st : CheckerState) :
    (check_network_connectivity env st).results = st.results ++ networkAppended env := by
  simp [check_network_connectivity, log_result, networkAppended]

theorem check_network_connectivity_cwd (env : Env) (st : CheckerState) :
    (check_network_connectivity env st).cwd = st.cwd :=
  rfl

theorem check_aeonsage_installation_cwd (env : Env) (fault : Option Nat)
    (st : CheckerState) :
    ((check_aeonsage_installation env fault st).2).cwd = st.cwd := by
  simp only [check_aeonsage_installation]
  split
  · rfl
  · rfl

theorem run_comprehensive_test_cwd (env : Env) (fault : Option Nat)
    (st : CheckerState) :
    ((run_comprehensive_test env fault st).2).cwd = st.cwd := by
  simp only [run_comprehensive_test]
  have h3 := check_aeonsage_installation_cwd env fault
    (check_node_environment env (check_system_info env st))
  rcases h : check_aeonsage_installation env fault
      (check_node_environment env (check_system_info env st)) with ⟨r, st3⟩
  rw [h] at h3
  have h2 : st3.cwd = st.cwd := by
    rw [h3, check_node_environment_cwd, check_system_info_cwd]
  cases r with
  | error e => simpa using h2
  | ok u =>
    simp only
    rw [check_network_connectivity_cwd]
    exact h2

theorem criticalChecks_append (xs ys : List CheckResult) :
    criticalChecks (xs ++ ys) = criticalChecks xs ++ criticalChecks ys := by
  simp [criticalChecks]

theorem criticalChecks_diskAppended (o : DfOutcome) :
    criticalChecks (diskAppended o) = [] := by
  cases o with
  | raised => rfl
  | ran code out =>
    simp only [diskAppended]
    repeat' split
    all_goals rfl

theorem criticalChecks_sysAppended (env : Env) :
    criticalChecks (sysAppended env) = [] := by
  rw [sysAppended, criticalChecks_append, criticalChecks_diskAppended]
  rfl

theorem criticalChecks_nodeEnvAppended (env : Env) :
    criticalChecks (nodeEnvAppended env)
      = [(run_command env.nodeProbe).1, (run_command env.pnpmProbe).1] :=
  rfl

theorem criticalChecks_networkAppended (env : Env) :
    criticalChecks (networkAppended env) = [] :=
  rfl

theorem tryBody_none_ok (env : Env) (st : CheckerState) :
    (tryBody env none st).1 = Except.ok () := by
  simp only [tryBody]
  repeat' split
  all_goals simp_all

theorem check_aeonsage_installation_none_ok (env : Env) (st : CheckerState) :
    (check_aeonsage_installation env none st).1 = Except.ok () := by
  simp only [check_aeonsage_installation]
  split
  · exact tryBody_none_ok env _
  · rfl

theorem run_comprehensive_test_none (env : Env) (st : CheckerState) :
    (run_comprehensive_test env none st).1
      = Except.ok
        ((criticalChecks ((run_comprehensive_test env none st).2).results).all id) := by
  simp only [run_comprehensive_test]
  have hok := check_aeonsage_installation_none_ok env
    (check_node_environment env (check_system_info env st))
  rcases h : check_aeonsage_installation env none
      (check_node_environment env (check_system_info env st)) with ⟨r, st3⟩
  rw [h] at hok
  cases r with
  | error e => simp at hok
  | ok u => simp

theorem verdict_ready_iff (rs : List CheckResult) :
    verdict rs = Verdict.ready ↔ (criticalChecks rs).all id = true := by
  simp only [verdict]
  split
  · simp_all
  · split
    all_goals simp_all

theorem criticalChecks_dirFail :
    criticalChecks [⟨"项目目录", false, "未找到"⟩] = [false] :=
  rfl

theorem logMany_invariant (calls : List (String × Bool × String)) :
    ∀ st : CheckerState, st.passed + st.failed = st.results.length →
      (logMany st calls).passed + (logMany st calls).failed
        = (logMany st calls).results.length := by
  induction calls with
  | nil => intro st h; exact h
  | cons c cs ih =>
    intro st h
    simp only [logMany]
    apply ih
    rcases c with ⟨n, p, m⟩
    cases p <;> simp [log_result] <;> omega

theorem all_eq_true_iff (rs : List CheckResult) :
    (criticalChecks rs).all id = true ↔
      ∀ r ∈ rs, criticalNames.contains r.name = true → r.passed = true := by
  simp [criticalChecks, List.all_eq_true]

theorem any_eq_true_iff (rs : List CheckResult) :
    (criticalChecks rs).any id = true ↔
      ∃ r ∈ rs, criticalNames.contains r.name = true ∧ r.passed = true := by
  simp [criticalChecks, List.any_eq_true]
  tauto

theorem all_eq_false_iff (rs : List CheckResult) :
    (criticalChecks rs).all id = false ↔
      ∃ r ∈ rs, criticalNames.contains r.name = true ∧ r.passed = false := by
  simp [criticalChecks, List.all_eq_false]
  tauto

theorem any_eq_false_iff (rs : List CheckResult) :
    (criticalChecks rs).any id = false ↔
      ∀ r ∈ rs, criticalNames.contains r.name = true → r.passed = false := by
  simp [criticalChecks, List.any_eq_false]

/-! Claim theorems. -/

/-- C3: the Reporter's success-rate computation
`passed / (passed + failed) * 100` is undefined (Python raises
`ZeroDivisionError`, modelled as `none`) when zero checks were recorded:
the source does not yield the defined value (0% or N/A) that the
specification requires, a defect in the source. -/
theorem successRate_zero_checks_undefined : successRate 0 0 = none :=
  rfl

/-- C4 (counterexample): `run_command` strips leading whitespace from the
captured standard output as well — on stdout `"  v1.0\n"` it returns
`"v1.0"`, while the claimed right-trim-only behaviour would preserve the
leading spaces and return `"  v1.0"`. -/
theorem run_command_strips_leading_cex :
    (run_command (ProbeOutcome.normalExit 0 "  v1.0\n")).2 = "v1.0" ∧
    pyStripRight "  v1.0\n" = "  v1.0" ∧
    ("v1.0" : String) ≠ "  v1.0" := by
  refine ⟨rfl, rfl, ?_⟩
  decide

/-- C4 (amended): for every probe outcome, `run_command` returns success iff
the command exited with code zero, with output the captured standard output
stripped of leading and trailing whitespace (Python `str.strip`, not a
right-trim); on timeout the fixed sentinel message; on any other launch
failure a message embedding the underlying description. -/
theorem run_command_spec (code : Int) (out e : String) :
    ((run_command (ProbeOutcome.normalExit code out)).1 = true ↔ code = 0) ∧
    (run_command (ProbeOutcome.normalExit code out)).2 = pyStrip out ∧
    run_command ProbeOutcome.timeout = (false, "命令执行超时") ∧
    run_command (ProbeOutcome.failure e) = (false, "执行错误: " ++ e) := by
  refine ⟨?_, rfl, rfl, rfl⟩
  simp [run_command]

/-- C6: after any sequence of `log_result` calls from the initial state,
`passed + failed` equals the length of the result sequence, and each single
`log_result` appends exactly one result and increments exactly one of the
two counters. -/
theorem tally_invariant (calls : List (String × Bool × String)) (cwd : String)
    (st : CheckerState) (n : String) (p : Bool) (m : String) :
    (logMany (initState cwd) calls).passed + (logMany (initState cwd) calls).failed
      = (logMany (initState cwd) calls).results.length ∧
    (log_result st n p m).results.length = st.results.length + 1 ∧
    (log_result st n p m).passed = st.passed + (if p then 1 else 0) ∧
    (log_result st n p m).failed = st.failed + (if p then 0 else 1) := by
  refine ⟨logMany_invariant calls (initState cwd) rfl, ?_, ?_, ?_⟩
  · simp [log_result]
  · cases p <;> simp [log_result]
  · cases p <;> simp [log_result]

/-- C5: the working directory after the project-installation check group
equals the working directory before it on every exit path — early return on
an absent project directory, normal completion, and an exception injected
at any point inside the `try` body — and consequently a full run leaves
the process working directory unchanged. -/
theorem cwd_restored (env : Env) (fault : Option Nat) (st : CheckerState) :
    ((check_aeonsage_installation env fault st).2).cwd = st.cwd ∧
    ((run_comprehensive_test env fault st).2).cwd = st.cwd :=
  ⟨check_aeonsage_installation_cwd env fault st,
   run_comprehensive_test_cwd env fault st⟩

/-- C9: on a disk-usage probe whose output has the data row
`/dev/sda1 50G 20G 28G 42% /`, the disk-space check records one passing
result with message `已用: 20G, 可用: 28G`, where the used and available
values are fields 2 and 3 of the data row. -/
theorem disk_scenario_message :
    (check_disk_space
        (DfOutcome.ran 0
          "Filesystem Size Used Avail Use% Mounted on\n/dev/sda1 50G 20G 28G 42% /")
        (initState "/content")).results
      = [⟨"磁盘空间", true, "已用: 20G, 可用: 28G"⟩] ∧
    (pySplit "/dev/sda1 50G 20G 28G 42% /").getD 2 "" = "20G" ∧
    (pySplit "/dev/sda1 50G 20G 28G 42% /").getD 3 "" = "28G" := by
  refine ⟨?_, rfl, rfl⟩
  decide

/-- C10: when the project directory exists but `package.json` does not, the
installation group records exactly two results — the directory check
(passed) and the manifest check (failed) — and completes normally without
ever producing the dependency, build-output or CLI results. -/
theorem manifest_missing_short_circuit (env : Env) (st : CheckerState) :
    ((check_aeonsage_installation
        { env with projectExists := true, packageExists := false } none st).2).results
      = st.results ++ [⟨"项目目录", true, "aeonsage"⟩, ⟨"package.json", false, "缺失"⟩] ∧
    (check_aeonsage_installation
        { env with projectExists := true, packageExists := false } none st).1
      = Except.ok () := by
  constructor <;> simp [check_aeonsage_installation, tryBody, log_result]

/-- C2 (counterexample): the disk-space check can record zero results — on a
non-zero exit code, on output with no data row, and on a data row with too
few fields, the nested `if`s fall through without recording anything,
contradicting the claim that exactly one result is always recorded. -/
theorem disk_space_zero_results_cex :
    (check_disk_space (DfOutcome.ran 1 "x") (initState "/content")).results = [] ∧
    (check_disk_space (DfOutcome.ran 0 "single line only") (initState "/content")).results = [] ∧
    (check_disk_space (DfOutcome.ran 0 "header\na b c") (initState "/content")).results = [] :=
  ⟨rfl, rfl, rfl⟩

/-- C2 (amended): the disk-space check never raises and records at most one
result: exactly one failing "could not obtain" result when the probe
raises an exception, exactly one passing result with the composed
used/available message when the output parses, and zero results on a
non-zero exit, a missing data row, or a short data row. -/
theorem disk_space_results_spec (o : DfOutcome) (st : CheckerState) :
    (check_disk_space o st).results = st.results ++ diskAppended o ∧
    (diskAppended o).length ≤ 1 ∧
    diskAppended DfOutcome.raised = [⟨"磁盘空间", false, "无法获取磁盘信息"⟩] := by
  refine ⟨check_disk_space_results o st, ?_, rfl⟩
  cases o with
  | raised => decide
  | ran code out =>
    simp only [diskAppended]
    repeat' split
    all_goals simp

/-- C7: with no exception injected, the process exit status is `0` exactly
when the computed verdict is READY, and `1` exactly when it is not. -/
theorem exit_code_iff_ready (env : Env) (cwd : String) :
    (main env none cwd = Except.ok 0 ↔
      verdict ((run_comprehensive_test env none (initState cwd)).2).results
        = Verdict.ready) ∧
    (main env none cwd = Except.ok 1 ↔
      verdict ((run_comprehensive_test env none (initState cwd)).2).results
        ≠ Verdict.ready) := by
  have hrun := run_comprehensive_test_none env (initState cwd)
  rcases h : run_comprehensive_test env none (initState cwd) with ⟨r, stF⟩
  rw [h] at hrun
  simp only at hrun
  simp only [main, h, hrun, verdict_ready_iff]
  cases hb : (criticalChecks stF.results).all id
  · simp [hb, verdict_ready_iff]
  · simp [hb, verdict_ready_iff]

/-- C8: when the project directory is absent, the installation group records
exactly one result — the directory check, failed — and completes normally
with no manifest, dependency, build or CLI entries; and in a full run where
the runtime and package-manager checks also fail, the verdict is
NOT_CONFIGURED and the process exit status is `1`. -/
theorem project_absent_behaviour (env : Env) (fault : Option Nat) (cwd : String)
    (st : CheckerState) (hproj : env.projectExists = false)
    (hnode : (run_command env.nodeProbe).1 = false)
    (hpnpm : (run_command env.pnpmProbe).1 = false) :
    check_aeonsage_installation env fault st
      = (Except.ok (), log_result st "项目目录" false "未找到") ∧
    ((check_aeonsage_installation env fault st).2).results
      = st.results ++ [⟨"项目目录", false, "未找到"⟩] ∧
    verdict (((run_comprehensive_test env fault (initState cwd)).2).results)
      = Verdict.notConfigured ∧
    main env fault cwd = Except.ok 1 := by
  have hgrp : ∀ s : CheckerState, check_aeonsage_installation env fault s
      = (Except.ok (), log_result s "项目目录" false "未找到") := by
    intro s
    simp [check_aeonsage_installation, hproj]
  have hrun : run_comprehensive_test env fault (initState cwd)
      = (Except.ok ((criticalChecks (check_network_connectivity env
            (log_result (check_node_environment env (check_system_info env (initState cwd)))
              "项目目录" false "未找到")).results).all id),
         check_network_connectivity env
           (log_result (check_node_environment env (check_system_info env (initState cwd)))
             "项目目录" false "未找到")) := by
    simp only [run_comprehensive_test, hgrp]
  have hres : (check_network_connectivity env
      (log_result (check_node_environment env (check_system_info env (initState cwd)))
        "项目目录" false "未找到")).results
      = (sysAppended env ++ (nodeEnvAppended env
          ++ ([⟨"项目目录", false, "未找到"⟩] ++ networkAppended env))) := by
    rw [check_network_connectivity_results, log_result_results,
      check_node_environment_results, check_system_info_results]
    simp [initState]
  have hcs : criticalChecks (check_network_connectivity env
      (log_result (check_node_environment env (check_system_info env (initState cwd)))
        "项目目录" false "未找到")).results = [false, false, false] := by
    rw [hres, criticalChecks_append, criticalChecks_append, criticalChecks_append,
      criticalChecks_sysAppended, criticalChecks_nodeEnvAppended,
      criticalChecks_networkAppended, criticalChecks_dirFail, hnode, hpnpm]
    rfl
  refine ⟨hgrp st, ?_, ?_, ?_⟩
  · rw [hgrp st]
    rfl
  · rw [hrun]
    simp only
    rw [verdict, hcs]
    rfl
  · simp only [main, hrun, hcs]
    rfl

/-- Witness for C8: in the concrete baseline environment (project directory
absent, every probe timing out) the full run exits with status `1`. -/
theorem project_absent_behaviour_witness :
    envBase.projectExists = false ∧
    (run_command envBase.nodeProbe).1 = false ∧
    (run_command envBase.pnpmProbe).1 = false ∧
    main envBase none "/content" = Except.ok 1 :=
  ⟨rfl, rfl, rfl,
   (project_absent_behaviour envBase none "/content" (initState "/content")
      rfl rfl rfl).2.2.2⟩

/-- C1 (counterexample): a run in which Node.js and pnpm report versions,
the project directory exists, but `package.json` is missing, records no
dependency or build-output result at all — yet the source's verdict is
READY, although the spec's missing-as-failed rule yields PARTIAL: the
dependency check, looked up by name, is not passed. -/
theorem verdict_missing_not_failed_cex :
    verdict ((run_comprehensive_test envNoManifest none (initState "/content")).2).results
      = Verdict.ready ∧
    lookupPassed ((run_comprehensive_test envNoManifest none (initState "/content")).2).results
      "依赖安装" = false ∧
    verdictSpec ((run_comprehensive_test envNoManifest none (initState "/content")).2).results
      = Verdict.incomplete := by
  refine ⟨?_, ?_, ?_⟩ <;> decide

/-- C1 (amended): the verdict is computed over the critical-named results
actually present in the result sequence — an absent critical name
contributes nothing rather than counting as failed: READY iff every
present critical result passed (vacuously READY when none is present),
PARTIAL iff at least one present critical result passed and at least one
failed, NOT_CONFIGURED iff at least one critical result is present and
none passed. -/
theorem verdict_characterization (rs : List CheckResult) :
    (verdict rs = Verdict.ready ↔
      ∀ r ∈ rs, criticalNames.contains r.name = true → r.passed = true) ∧
    (verdict rs = Verdict.incomplete ↔
      ((∃ r ∈ rs, criticalNames.contains r.name = true ∧ r.passed = true) ∧
       (∃ r ∈ rs, criticalNames.contains r.name = true ∧ r.passed = false))) ∧
    (verdict rs = Verdict.notConfigured ↔
      ((∃ r ∈ rs, criticalNames.contains r.name = true) ∧
       ∀ r ∈ rs, criticalNames.contains r.name = true → r.passed = false)) := by
  simp only [verdict]
  by_cases hA : (criticalChecks rs).all id = true
  · rw [if_pos hA]
    have hall := (all_eq_true_iff rs).mp hA
    refine ⟨iff_of_true rfl hall, iff_of_false (by simp) ?_, iff_of_false (by simp) ?_⟩
    · rintro ⟨-, r, hr, hc, hp⟩
      rw [hall r hr hc] at hp
      simp at hp
    · rintro ⟨⟨r, hr, hc⟩, hfail⟩
      have h1 := hall r hr hc
      have h2 := hfail r hr hc
      rw [h1] at h2
      simp at h2
  · rw [if_neg hA]
    have hAf : (criticalChecks rs).all id = false := by
      cases h : (criticalChecks rs).all id
      · rfl
      · exact absurd h hA
    obtain ⟨r0, hr0, hc0, hp0⟩ := (all_eq_false_iff rs).mp hAf
    have hnall : ¬ ∀ r ∈ rs, criticalNames.contains r.name = true → r.passed = true := by
      intro h
      rw [h r0 hr0 hc0] at hp0
      simp at hp0
    by_cases hB : (criticalChecks rs).any id = true
    · rw [if_pos hB]
      obtain ⟨r1, hr1, hc1, hp1⟩ := (any_eq_true_iff rs).mp hB
      refine ⟨iff_of_false (by simp) hnall,
        iff_of_true rfl ⟨⟨r1, hr1, hc1, hp1⟩, ⟨r0, hr0, hc0, hp0⟩⟩,
        iff_of_false (by simp) ?_⟩
      rintro ⟨-, hfail⟩
      have h2 := hfail r1 hr1 hc1
      rw [hp1] at h2
      simp at h2
    · rw [if_neg hB]
      have hBf : (criticalChecks rs).any id = false := by
        cases h : (criticalChecks rs).any id
        · rfl
        · exact absurd h hB
      have hfail := (any_eq_false_iff rs).mp hBf
      refine ⟨iff_of_false (by simp) hnall, iff_of_false (by simp) ?_,
        iff_of_true rfl ⟨⟨r0, hr0, hc0⟩, hfail⟩⟩
      rintro ⟨⟨r1, hr1, hc1, hp1⟩, -⟩
      have h2 := hfail r1 hr1 hc1
      rw [hp1] at h2
      simp at h2

end VerifyEnv
